import Mathlib

/-!
Verification of the passport-photo validation pipeline
(`src/models/photo.py`, `src/validators/*.py`, `src/services/validation_service.py`).

Shallow embedding conventions:
* images are grayscale pixel buffers, modelled as lists of rows of natural
  numbers (`numpy` 2-D uint8 arrays);
* `float` arithmetic is modelled over `ℚ`;
* Python exceptions are modelled with `Except String`;
* NumPy / OpenCV primitives with pure pixel semantics (histogram counting,
  mean, slicing) are embedded directly; the OpenCV colour/edge analysis used
  only by the headwear and background validators (HSV skin masks, Canny) is
  abstracted by an explicit measurement parameter.
-/

/-- Pixel buffer: a list of rows of grayscale values (`np.ndarray`, 2-D). -/
abbrev Image := List (List ℕ)

/-- Total number of pixels (`ndarray.size`). -/
def Image.size (img : Image) : ℕ := (img.map List.length).sum

/-- Number of rows (`shape[0]`). -/
def Image.height (img : Image) : ℕ := img.length

/-- Number of columns (`shape[1]`, taken from the first row). -/
def Image.width (img : Image) : ℕ := (img.headD []).length

/-- Flattened pixel list. -/
def Image.pixels (img : Image) : List ℕ := img.flatten

/-- NumPy slice `img[y:y+h, x:x+w]` (slicing clamps at the borders). -/
def Image.crop (img : Image) (x y w h : ℕ) : Image :=
  ((img.drop y).take h).map (fun row => (row.drop x).take w)

/-- `PhotoStatus` enum from `src/models/photo.py`. -/
inductive PhotoStatus where
  | pending
  | approved
  | rejected
deriving DecidableEq, Repr

/-- `ValidationResult` dataclass from `src/models/photo.py`.
The optional `details` debugging mapping (heterogeneous dict, never read
back by the pipeline) is not modelled. -/
structure ValidationResult where
  validator_name : String
  is_valid : Bool
  confidence : ℚ
  message : String
deriving DecidableEq, Repr

/-- `ValidationResult.__init__` together with `__post_init__`, which raises
`ValueError` unless `0.0 <= confidence <= 1.0`. -/
def mkValidationResult (validator_name : String) (is_valid : Bool)
    (confidence : ℚ) (message : String) : Except String ValidationResult :=
  if 0 ≤ confidence ∧ confidence ≤ 1 then
    .ok ⟨validator_name, is_valid, confidence, message⟩
  else
    .error "Confidence must be between 0.0 and 1.0"

/-- `Photo` dataclass from `src/models/photo.py`. The fields `timestamp`,
`id`, `file_path` and `metadata` play no role in validation and are omitted. -/
structure Photo where
  image_data : Option Image := none
  status : PhotoStatus := .pending
  validation_results : List ValidationResult := []
deriving DecidableEq, Repr

/-- `Photo.add_validation_result`: appends one result. -/
def Photo.add_validation_result (p : Photo) (result : ValidationResult) : Photo :=
  { p with validation_results := p.validation_results ++ [result] }

/-- `Photo.is_valid`: `False` on an empty result list, otherwise `all`. -/
def Photo.is_valid (p : Photo) : Bool :=
  if p.validation_results.isEmpty then false
  else p.validation_results.all (fun r => r.is_valid)

/-- `Photo.get_overall_confidence`: mean confidence, `0.0` when empty. -/
def Photo.get_overall_confidence (p : Photo) : ℚ :=
  if p.validation_results.isEmpty then 0
  else (p.validation_results.map (fun r => r.confidence)).sum
        / (p.validation_results.length : ℚ)

/-- `Photo.get_failed_validations`. -/
def Photo.get_failed_validations (p : Photo) : List ValidationResult :=
  p.validation_results.filter (fun r => !r.is_valid)

/-- `Photo.update_status`: approved when `is_valid()`, rejected when the
result list is (non-empty and) truthy, pending otherwise. -/
def Photo.update_status (p : Photo) : Photo :=
  if p.is_valid then { p with status := .approved }
  else if !p.validation_results.isEmpty then { p with status := .rejected }
  else { p with status := .pending }

/-- Landmark dictionary produced by the face detection model and read by the
validators, modelled field per key (each key optionally present). -/
structure Landmarks where
  left_eye_height : Option ℚ := none
  right_eye_height : Option ℚ := none
  left_eye_region : Option (ℕ × ℕ × ℕ × ℕ) := none
  right_eye_region : Option (ℕ × ℕ × ℕ × ℕ) := none
  mouth_upper : Option ℚ := none
  mouth_lower : Option ℚ := none
  mouth_width : Option ℚ := none
  eyebrow_raise : Option ℚ := none
  mouth_symmetry : Option ℚ := none
deriving DecidableEq, Repr

/-- A landmark dict with no keys: Python treats `{}` as falsy, so validators
testing `if not face_detection.landmarks` treat it like `None`. -/
def Landmarks.isEmpty (lm : Landmarks) : Bool :=
  lm.left_eye_height.isNone && lm.right_eye_height.isNone &&
  lm.left_eye_region.isNone && lm.right_eye_region.isNone &&
  lm.mouth_upper.isNone && lm.mouth_lower.isNone && lm.mouth_width.isNone &&
  lm.eyebrow_raise.isNone && lm.mouth_symmetry.isNone

/-- `FaceDetectionResult` dataclass from `src/models/photo.py`. -/
structure FaceDetectionResult where
  face_found : Bool
  confidence : ℚ
  face_bbox : Option (ℕ × ℕ × ℕ × ℕ) := none
  landmarks : Option Landmarks := none
deriving DecidableEq, Repr

/-- `FaceDetectionResult.get_face_center`: `(x + w // 2, y + h // 2)`, `None`
without a bounding box (a 4-tuple is always truthy in Python, so only `None`
takes the early return). -/
def FaceDetectionResult.get_face_center (fd : FaceDetectionResult) :
    Option (ℕ × ℕ) :=
  match fd.face_bbox with
  | none => none
  | some (x, y, w, h) => some (x + w / 2, y + h / 2)

/-- `FaceDetectionResult.get_face_size`: `w * h`, `None` without a bbox. -/
def FaceDetectionResult.get_face_size (fd : FaceDetectionResult) : Option ℕ :=
  match fd.face_bbox with
  | none => none
  | some (_, _, w, h) => some (w * h)

/-- `BaseValidator._validate_image_data`: raises `ValueError` when the photo
has no image data or the array is empty. -/
def validate_image_data (p : Photo) : Except String Unit :=
  match p.image_data with
  | none => .error "Photo has no image data"
  | some img =>
    if Image.size img = 0 then .error "Photo image data is empty" else .ok ()

/-- State of a `BaseValidator` (`src/validators/base_validator.py`): the one
configurable threshold. -/
structure BaseValidator where
  threshold : ℚ
deriving DecidableEq, Repr

/-- `BaseValidator.__init__`: raises `ValueError` unless `0.0 <= t <= 1.0`. -/
def mkBaseValidator (threshold : ℚ) : Except String BaseValidator :=
  if 0 ≤ threshold ∧ threshold ≤ 1 then .ok ⟨threshold⟩
  else .error "Threshold must be between 0.0 and 1.0"

/-- The `threshold` property setter: on success the new value is stored; on
failure a `ValueError` is raised before assignment, so the stored threshold
is unchanged.  Modelled as (state after the call, raised error if any). -/
def BaseValidator.set_threshold (v : BaseValidator) (value : ℚ) :
    BaseValidator × Option String :=
  if 0 ≤ value ∧ value ≤ 1 then (⟨value⟩, none)
  else (v, some "Threshold must be between 0.0 and 1.0")

/-- `BrightnessValidator` (`src/validators/brightness_validator.py`): the
threshold plus the acceptable mean-brightness range.  Defaults come from
`ValidatorConfig`: threshold `0.5`, range `[50, 230]`. -/
structure BrightnessValidator where
  threshold : ℚ := 1/2
  min_brightness : ℚ := 50
  max_brightness : ℚ := 230
deriving DecidableEq, Repr

/-- `BrightnessValidator.__init__`: the threshold is checked by
`super().__init__`, the range bounds are stored unchecked. -/
def mkBrightnessValidator (threshold : ℚ) (min_brightness : ℚ)
    (max_brightness : ℚ) : Except String BrightnessValidator :=
  (mkBaseValidator threshold).map
    (fun b => ⟨b.threshold, min_brightness, max_brightness⟩)

/-- Core of `BrightnessValidator.validate` after the image-data check and
grayscale conversion: mean intensity, overexposure mass (histogram bins
`240..255`), underexposure mass (bins `0..14`), the 70/30 blend and the
feedback message. -/
def brightness_core (v : BrightnessValidator) (gray : List ℕ) :
    ValidationResult :=
  let n : ℚ := (gray.length : ℚ)
  let mean_brightness : ℚ := (gray.map (fun px : ℕ => (px : ℚ))).sum / n
  let overexposed_ratio : ℚ := ((gray.filter (fun px => 240 ≤ px)).length : ℚ) / n
  let underexposed_ratio : ℚ := ((gray.filter (fun px => px < 15)).length : ℚ) / n
  let brightness_score : ℚ :=
    if v.min_brightness ≤ mean_brightness ∧ mean_brightness ≤ v.max_brightness
    then 1
    else
      let distance :=
        if mean_brightness < v.min_brightness
        then v.min_brightness - mean_brightness
        else mean_brightness - v.max_brightness
      max 0 (1 - distance / 30)
  let extreme_score : ℚ := 1 - min 1 ((overexposed_ratio + underexposed_ratio) * 2)
  let confidence : ℚ := brightness_score * (7/10) + extreme_score * (3/10)
  let is_valid : Bool := decide (v.threshold ≤ confidence)
  let message : String :=
    if is_valid then "Belichting is correct"
    else if mean_brightness < v.min_brightness then
      "Foto is te donker. Zorg voor meer licht"
    else if v.max_brightness < mean_brightness then
      "Foto is te licht. Verminder de belichting"
    else if (1/20 : ℚ) < overexposed_ratio then
      "Te veel overbelichting gedetecteerd"
    else if (1/20 : ℚ) < underexposed_ratio then
      "Te veel onderbelichting gedetecteerd"
    else "Belichting is niet optimaal"
  ⟨"BrightnessValidator", is_valid, confidence, message⟩

/-- `BrightnessValidator.validate`: image-data check, grayscale conversion
(identity on our grayscale buffers), then the brightness scoring. -/
def BrightnessValidator.validate (v : BrightnessValidator) (photo : Photo) :
    Except String ValidationResult :=
  match validate_image_data photo with
  | .error e => .error e
  | .ok _ => .ok (brightness_core v ((photo.image_data.getD []).flatten))

/-- `SharpnessValidator` state (`src/validators/sharpness_validator.py`);
defaults: threshold `0.5`, minimum Laplacian variance `50`. -/
structure SharpnessValidator where
  threshold : ℚ := 1/2
  min_variance : ℚ := 50
deriving DecidableEq, Repr

/-- `SharpnessValidator.__init__`. -/
def mkSharpnessValidator (threshold : ℚ) (min_variance : ℚ) :
    Except String SharpnessValidator :=
  (mkBaseValidator threshold).map (fun b => ⟨b.threshold, min_variance⟩)

/-- `ReflectionValidator` state (`src/validators/reflection_validator.py`);
defaults: threshold `0.5`, brightness threshold `250`, max ratio `0.12`. -/
structure ReflectionValidator where
  threshold : ℚ := 1/2
  brightness_threshold : ℚ := 250
  max_reflection_ratio : ℚ := 3/25
deriving DecidableEq, Repr

/-- `ReflectionValidator.__init__`. -/
def mkReflectionValidator (threshold : ℚ)
    (brightness_threshold : ℚ) (max_reflection_ratio : ℚ) :
    Except String ReflectionValidator :=
  (mkBaseValidator threshold).map
    (fun b => ⟨b.threshold, brightness_threshold, max_reflection_ratio⟩)

/-- `ShadowValidator` state (`src/validators/shadow_validator.py`); defaults:
threshold `0.5`, darkness threshold `35`, max shadow ratio `0.20`. -/
structure ShadowValidator where
  threshold : ℚ := 1/2
  darkness_threshold : ℚ := 35
  max_shadow_ratio : ℚ := 1/5
deriving DecidableEq, Repr

/-- `ShadowValidator.__init__`. -/
def mkShadowValidator (threshold : ℚ) (darkness_threshold : ℚ)
    (max_shadow_ratio : ℚ) : Except String ShadowValidator :=
  (mkBaseValidator threshold).map
    (fun b => ⟨b.threshold, darkness_threshold, max_shadow_ratio⟩)

/-- `FacePositionValidator` state; defaults from `ValidatorConfig`:
threshold `0.5`, center tolerance `0.30`, size-ratio range `[0.05, 0.70]`. -/
structure FacePositionValidator where
  threshold : ℚ := 1/2
  center_tolerance : ℚ := 3/10
  min_size_ratio : ℚ := 1/20
  max_size_ratio : ℚ := 7/10
deriving DecidableEq, Repr

/-- `FacePositionValidator.__init__`. -/
def mkFacePositionValidator (threshold center_tolerance min_size_ratio max_size_ratio : ℚ) :
    Except String FacePositionValidator :=
  (mkBaseValidator threshold).map
    (fun b => ⟨b.threshold, center_tolerance, min_size_ratio, max_size_ratio⟩)

/-- `FacePositionValidator.validate` (`face_position_validator.py`).  Note
the Python truthiness test `if not face_center or not face_size`: with a
bounding box present both are tuples/ints, so the only falsy case is a face
area of `0`. -/
def FacePositionValidator.validate (v : FacePositionValidator) (photo : Photo)
    (face_detection : Option FaceDetectionResult) :
    Except String ValidationResult :=
  match validate_image_data photo with
  | .error e => .error e
  | .ok _ =>
    match face_detection with
    | none =>
      .ok ⟨"FacePositionValidator", false, 0,
        "Geen gezicht gedetecteerd. Zorg dat uw gezicht zichtbaar is"⟩
    | some fd =>
      if !fd.face_found then
        .ok ⟨"FacePositionValidator", false, 0,
          "Geen gezicht gedetecteerd. Zorg dat uw gezicht zichtbaar is"⟩
      else
        match fd.face_bbox with
        | none =>
          .ok ⟨"FacePositionValidator", false, 0,
            "Gezicht kon niet worden gelokaliseerd"⟩
        | some (_, _, w, h) =>
          let img := photo.image_data.getD []
          let img_width : ℚ := (Image.width img : ℚ)
          let img_height : ℚ := (Image.height img : ℚ)
          let img_center_x : ℚ := img_width / 2
          let img_center_y : ℚ := img_height / 2
          let face_size := w * h
          if face_size = 0 then
            .ok ⟨"FacePositionValidator", false, 0,
              "Gezicht kon niet worden geanalyseerd"⟩
          else
            let face_center := fd.get_face_center.getD (0, 0)
            let face_x : ℚ := (face_center.1 : ℚ)
            let face_y : ℚ := (face_center.2 : ℚ)
            let center_offset_x : ℚ := |face_x - img_center_x| / img_width
            let center_offset_y : ℚ := |face_y - img_center_y| / img_height
            let max_center_offset := max center_offset_x center_offset_y
            let centering_score : ℚ :=
              if max_center_offset ≤ v.center_tolerance then 1
              else max 0 (1 - (max_center_offset - v.center_tolerance) / v.center_tolerance)
            let img_size : ℚ := img_width * img_height
            let face_size_ratio : ℚ := (face_size : ℚ) / img_size
            let size_score : ℚ :=
              if v.min_size_ratio ≤ face_size_ratio ∧ face_size_ratio ≤ v.max_size_ratio
              then 1
              else if face_size_ratio < v.min_size_ratio then
                max 0 (1 - (v.min_size_ratio - face_size_ratio) / v.min_size_ratio)
              else
                max 0 (1 - (face_size_ratio - v.max_size_ratio) / v.max_size_ratio)
            let aspect : ℚ := if 0 < h then (w : ℚ) / (h : ℚ) else 0
            let aspect_score : ℚ :=
              if 11/20 ≤ aspect ∧ aspect ≤ 11/10 then 1
              else if aspect < 11/20 then max 0 (1 - (11/20 - aspect) * 2)
              else max 0 (1 - (aspect - 11/10) * 2)
            let confidence : ℚ :=
              centering_score * (2/5) + size_score * (2/5) + aspect_score * (1/5)
            let is_valid : Bool := decide (v.threshold ≤ confidence)
            let message : String :=
              if is_valid then "Gezichtspositie is correct"
              else if centering_score < 7/10 then
                if center_offset_y < center_offset_x then
                  if face_x < img_center_x then "Beweeg meer naar rechts in beeld"
                  else "Beweeg meer naar links in beeld"
                else
                  if face_y < img_center_y then "Beweeg meer naar beneden in beeld"
                  else "Beweeg meer naar boven in beeld"
              else if size_score < 7/10 then
                if face_size_ratio < v.min_size_ratio then "Kom dichter bij de camera"
                else "Ga verder van de camera af"
              else if aspect_score < 7/10 then
                "Houd uw hoofd recht en kijk frontaal in de camera"
              else "Pas uw positie aan voor een betere pasfoto"
            .ok ⟨"FacePositionValidator", is_valid, confidence, message⟩

/-- `FacialExpressionValidator` state; defaults from `ValidatorConfig`:
threshold `0.4`, mouth-open threshold `0.5`. -/
structure FacialExpressionValidator where
  threshold : ℚ := 2/5
  mouth_open_threshold : ℚ := 1/2
deriving DecidableEq, Repr

/-- `FacialExpressionValidator.__init__`. -/
def mkFacialExpressionValidator (threshold mouth_open_threshold : ℚ) :
    Except String FacialExpressionValidator :=
  (mkBaseValidator threshold).map (fun b => ⟨b.threshold, mouth_open_threshold⟩)

/-- `FacialExpressionValidator._calculate_mouth_aspect_ratio`: height/width
from the mouth landmarks, `0.1` when any key is missing, `0.0` for a
zero-width mouth. -/
def calculate_mouth_aspect_ratio (lm : Landmarks) : ℚ :=
  match lm.mouth_upper, lm.mouth_lower, lm.mouth_width with
  | some mu, some ml, some mw =>
    if mw = 0 then 0 else |ml - mu| / mw
  | _, _, _ => 1/10

/-- `FacialExpressionValidator._analyze_facial_features`: start from `1.0`,
subtract `0.3` for a raised eyebrow (`> 0.3`), subtract `0.2` for mouth
asymmetry (`< 0.7`), clamp to `[0, 1]`. -/
def analyze_facial_features (lm : Landmarks) : ℚ :=
  let score : ℚ := 1
  let score := match lm.eyebrow_raise with
    | some er => if 3/10 < er then score - 3/10 else score
    | none => score
  let score := match lm.mouth_symmetry with
    | some sym => if sym < 7/10 then score - 1/5 else score
    | none => score
  max 0 (min 1 score)

/-- `FacialExpressionValidator.validate` (`expression_validator.py`). -/
def FacialExpressionValidator.validate (v : FacialExpressionValidator)
    (photo : Photo) (face_detection : Option FaceDetectionResult) :
    Except String ValidationResult :=
  match validate_image_data photo with
  | .error e => .error e
  | .ok _ =>
    match face_detection with
    | none => .ok ⟨"FacialExpressionValidator", false, 0, "Geen gezicht gedetecteerd"⟩
    | some fd =>
      if !fd.face_found then
        .ok ⟨"FacialExpressionValidator", false, 0, "Geen gezicht gedetecteerd"⟩
      else
        match fd.landmarks with
        | none =>
          .ok ⟨"FacialExpressionValidator", false, 0,
            "Gezichtskenmerken konden niet worden gedetecteerd"⟩
        | some lm =>
          if lm.isEmpty then
            .ok ⟨"FacialExpressionValidator", false, 0,
              "Gezichtskenmerken konden niet worden gedetecteerd"⟩
          else
            let mouth_aspect_ratio := calculate_mouth_aspect_ratio lm
            let mouth_closed : Bool := decide (mouth_aspect_ratio ≤ v.mouth_open_threshold)
            let mouth_score : ℚ :=
              if mouth_closed then 1
              else max 0 (1 - (mouth_aspect_ratio - v.mouth_open_threshold) / (3/10))
            let expression_score := analyze_facial_features lm
            let confidence : ℚ := mouth_score * (3/5) + expression_score * (2/5)
            let is_valid : Bool := decide (v.threshold ≤ confidence)
            let message : String :=
              if is_valid then "Gezichtsuitdrukking is neutraal en correct"
              else if !mouth_closed then "Sluit uw mond voor de pasfoto"
              else if expression_score < 3/5 then
                "Neem een neutrale gezichtsuitdrukking aan"
              else "Gezichtsuitdrukking is niet volledig neutraal"
            .ok ⟨"FacialExpressionValidator", is_valid, confidence, message⟩

/-- `EyeVisibilityValidator` state; defaults from `ValidatorConfig`:
threshold `0.4`, minimum eye aspect ratio `0.12` (stored by the constructor
but unused by `validate`, which hard-codes its breakpoints). -/
structure EyeVisibilityValidator where
  threshold : ℚ := 2/5
  min_eye_aspect_ratio : ℚ := 3/25
deriving DecidableEq, Repr

/-- `EyeVisibilityValidator.__init__`. -/
def mkEyeVisibilityValidator (threshold min_eye_aspect_ratio : ℚ) :
    Except String EyeVisibilityValidator :=
  (mkBaseValidator threshold).map (fun b => ⟨b.threshold, min_eye_aspect_ratio⟩)

/-- `EyeVisibilityValidator._calculate_eye_aspect_ratio`: the aspect ratio
stored by the detection model under `{eye}_eye_height`, `0.10` when the key
is missing. -/
def calculate_eye_aspect_ratio (stored : Option ℚ) : ℚ := stored.getD (1/10)

/-- Per-eye openness score from `EyeVisibilityValidator.validate` (the source
computes this formula twice, once per eye, with breakpoints `0.22`/`0.25`):
`1.0` from `0.25` up, a `0.6 + linear·0.4` ramp between the breakpoints, and
`ear/0.22·0.5` below. -/
def eye_open_score (ear : ℚ) : ℚ :=
  if 1/4 ≤ ear then 1
  else if 11/50 ≤ ear then 3/5 + (ear - 11/50) / (1/4 - 11/50) * (2/5)
  else max 0 (ear / (11/50) * (1/2))

/-- `EyeVisibilityValidator._check_eye_coverage`: crop the eye region, count
pixels brighter than `240`; `0.8` without a region key, `0.5` for an empty
crop, then `0.5` above `30%` bright pixels, `0.7` above `15%`, else `1.0`. -/
def check_eye_coverage (img : Image) (region : Option (ℕ × ℕ × ℕ × ℕ)) : ℚ :=
  match region with
  | none => 4/5
  | some (x, y, w, h) =>
    let eye_region := Image.crop img x y w h
    let total := Image.size eye_region
    if total = 0 then 1/2
    else
      let bright := (eye_region.flatten.filter (fun px => 240 < px)).length
      let bright_ratio : ℚ := (bright : ℚ) / (total : ℚ)
      if 3/10 < bright_ratio then 1/2
      else if 3/20 < bright_ratio then 7/10
      else 1

/-- `EyeVisibilityValidator.validate` (`eye_validator.py`): per-eye aspect
ratios against the `0.22` closed and `0.25` acceptable breakpoints, blended
70/30 with the coverage score; a pass needs confidence above the threshold
AND both eyes individually above the closed breakpoint. -/
def EyeVisibilityValidator.validate (v : EyeVisibilityValidator)
    (photo : Photo) (face_detection : Option FaceDetectionResult) :
    Except String ValidationResult :=
  match validate_image_data photo with
  | .error e => .error e
  | .ok _ =>
    match face_detection with
    | none => .ok ⟨"EyeVisibilityValidator", false, 0, "Geen gezicht gedetecteerd"⟩
    | some fd =>
      if !fd.face_found then
        .ok ⟨"EyeVisibilityValidator", false, 0, "Geen gezicht gedetecteerd"⟩
      else
        match fd.landmarks with
        | none =>
          .ok ⟨"EyeVisibilityValidator", false, 0,
            "Ogen konden niet worden gedetecteerd"⟩
        | some lm =>
          if lm.isEmpty then
            .ok ⟨"EyeVisibilityValidator", false, 0,
              "Ogen konden niet worden gedetecteerd"⟩
          else
            let img := photo.image_data.getD []
            let left_ear := calculate_eye_aspect_ratio lm.left_eye_height
            let right_ear := calculate_eye_aspect_ratio lm.right_eye_height
            let left_eye_open : Bool := decide (11/50 ≤ left_ear)
            let right_eye_open : Bool := decide (11/50 ≤ right_ear)
            let left_score := eye_open_score left_ear
            let right_score := eye_open_score right_ear
            let left_coverage := check_eye_coverage img lm.left_eye_region
            let right_coverage := check_eye_coverage img lm.right_eye_region
            let coverage_score : ℚ := (left_coverage + right_coverage) / 2
            let eye_openness_score : ℚ := (left_score + right_score) / 2
            let confidence : ℚ := eye_openness_score * (7/10) + coverage_score * (3/10)
            let is_valid : Bool :=
              decide (v.threshold ≤ confidence) && left_eye_open && right_eye_open
            let message : String :=
              if is_valid then "Beide ogen zijn goed zichtbaar"
              else if !left_eye_open && !right_eye_open then
                "Open uw ogen voor de pasfoto"
              else if !left_eye_open then "Open uw rechteroog voor de pasfoto"
              else if !right_eye_open then "Open uw linkeroog voor de pasfoto"
              else if coverage_score < 7/10 then
                "Zorg dat uw ogen niet bedekt zijn door reflecties of haar"
              else "Ogen zijn niet volledig zichtbaar"
            .ok ⟨"EyeVisibilityValidator", is_valid, confidence, message⟩

/-- Scalar measurements the headwear validator extracts from the forehead
crop with OpenCV (`cv2.cvtColor`/`cv2.inRange` skin masks, `np.std`): the
skin-tone pixel ratio, the dark-pixel (`< 60`) ratio and the colour standard
deviation.  The colour analysis itself is abstracted as a parameter. -/
structure ForeheadMeasurements where
  skin_ratio : ℚ
  dark_ratio : ℚ
  std_color : ℚ
deriving DecidableEq, Repr

/-- `HeadwearValidator` state (`headwear_validator.py`); default threshold
`0.5`. -/
structure HeadwearValidator where
  threshold : ℚ := 1/2
deriving DecidableEq, Repr

/-- `HeadwearValidator.__init__`. -/
def mkHeadwearValidator (threshold : ℚ) : Except String HeadwearValidator :=
  (mkBaseValidator threshold).map (fun b => ⟨b.threshold⟩)

/-- `HeadwearValidator.validate`: fails with confidence `0` without a face
or bounding box, passes with confidence `0.8` for an empty forehead crop
(`img[max(0, y - int(h*0.3)):y, x:x+w]`), otherwise runs the rule cascade on
the skin/darkness/uniformity measurements (`measure` abstracts the OpenCV
colour analysis of the crop). -/
def HeadwearValidator.validate (_v : HeadwearValidator)
    (measure : Image → ForeheadMeasurements) (photo : Photo)
    (face_detection : Option FaceDetectionResult) :
    Except String ValidationResult :=
  match validate_image_data photo with
  | .error e => .error e
  | .ok _ =>
    let no_face : Except String ValidationResult :=
      .ok ⟨"HeadwearValidator", false, 0, "Geen gezicht gedetecteerd"⟩
    match face_detection with
    | none => no_face
    | some fd =>
      if !fd.face_found then no_face
      else
        match fd.face_bbox with
        | none => no_face
        | some (x, y, w, h) =>
          let img := photo.image_data.getD []
          let forehead_top := y - 3 * h / 10
          let forehead_region := Image.crop img x forehead_top w (y - forehead_top)
          if Image.size forehead_region = 0 then
            .ok ⟨"HeadwearValidator", true, 4/5, "Geen hoofddeksel gedetecteerd"⟩
          else
            let m := measure forehead_region
            let state0 : Bool × ℚ := (false, 1)
            let state1 :=
              if m.skin_ratio < 3/10 ∧ 2/5 < m.dark_ratio then (true, (1/5 : ℚ))
              else state0
            let state2 := if m.skin_ratio < 3/20 then (true, (1/10 : ℚ)) else state1
            let state3 :=
              if m.std_color < 25 ∧ m.skin_ratio < 2/5 then (true, (3/10 : ℚ))
              else state2
            let is_valid : Bool := !state3.1
            let message : String :=
              if is_valid then "Geen hoofddeksel gedetecteerd"
              else "Verwijder hoofddeksel (pet, hoed) voor de pasfoto"
            .ok ⟨"HeadwearValidator", is_valid, state3.2, message⟩

/-- Scalar measurements the background validator extracts with OpenCV from
the pixels outside the expanded face mask: how many background pixels there
are, their grayscale standard deviation and mean, the per-channel colour
standard deviation, and the Canny edge ratio.  The mask/edge analysis is
abstracted as a parameter. -/
structure BackgroundMeasurements where
  bg_pixel_count : ℕ
  bg_std : ℚ
  bg_mean : ℚ
  bg_color_std : ℚ
  edge_ratio : ℚ
deriving DecidableEq, Repr

/-- `BackgroundValidator` state (`background_validator.py`); default
threshold `0.5`. -/
structure BackgroundValidator where
  threshold : ℚ := 1/2
deriving DecidableEq, Repr

/-- `BackgroundValidator.__init__`. -/
def mkBackgroundValidator (threshold : ℚ) : Except String BackgroundValidator :=
  (mkBaseValidator threshold).map (fun b => ⟨b.threshold⟩)

/-- `BackgroundValidator.validate`: without a face (or bounding box) it
returns `is_valid=True` with confidence `0.5` ("Achtergrond kon niet worden
geanalyseerd"); with fewer than 100 background pixels it passes with `0.7`;
otherwise it blends uniformity/colour/edge scores 0.4/0.3/0.3 plus a light-
background bonus, capped at `1.0` (`measure` abstracts the OpenCV mask and
edge analysis of the image given the face bounding box). -/
def BackgroundValidator.validate (v : BackgroundValidator)
    (measure : Image → ℕ × ℕ × ℕ × ℕ → BackgroundMeasurements) (photo : Photo)
    (face_detection : Option FaceDetectionResult) :
    Except String ValidationResult :=
  match validate_image_data photo with
  | .error e => .error e
  | .ok _ =>
    let no_face : Except String ValidationResult :=
      .ok ⟨"BackgroundValidator", true, 1/2, "Achtergrond kon niet worden geanalyseerd"⟩
    match face_detection with
    | none => no_face
    | some fd =>
      if !fd.face_found then no_face
      else
        match fd.face_bbox with
        | none => no_face
        | some bbox =>
          let img := photo.image_data.getD []
          let m := measure img bbox
          if m.bg_pixel_count < 100 then
            .ok ⟨"BackgroundValidator", true, 7/10, "Achtergrond is acceptabel"⟩
          else
            let uniformity_score : ℚ :=
              if m.bg_std < 20 then 1
              else if m.bg_std < 40 then 7/10
              else if m.bg_std < 60 then 1/2
              else 3/10
            let color_score : ℚ :=
              if m.bg_color_std < 15 then 1
              else if m.bg_color_std < 30 then 7/10
              else 2/5
            let edge_score : ℚ :=
              if m.edge_ratio < 1/20 then 1
              else if m.edge_ratio < 1/10 then 7/10
              else if m.edge_ratio < 1/5 then 1/2
              else 3/10
            let brightness_bonus : ℚ :=
              if 180 < m.bg_mean then 1/10
              else if 150 < m.bg_mean then 1/20
              else 0
            let confidence : ℚ :=
              min 1 (uniformity_score * (2/5) + color_score * (3/10)
                      + edge_score * (3/10) + brightness_bonus)
            let is_valid : Bool := decide (v.threshold ≤ confidence)
            let message : String :=
              if is_valid then "Achtergrond is acceptabel"
              else if edge_score < 1/2 then
                "Achtergrond bevat storende objecten. Gebruik een neutrale achtergrond"
              else if uniformity_score < 1/2 then
                "Achtergrond is niet uniform genoeg. Gebruik een effen achtergrond"
              else "Gebruik een neutrale, lichte achtergrond voor de pasfoto"
            .ok ⟨"BackgroundValidator", is_valid, confidence, message⟩

/-- A registered check as the orchestrator sees it (`IValidator`): a name
(`get_name`) and an `evaluate` that either returns a result or raises. -/
structure CheckStrategy where
  name : String
  validate : Photo → Option FaceDetectionResult → Except String ValidationResult

/-- `ValidationService` (`src/services/validation_service.py`): the face
detection model (abstracted to its `detect_face` function) and the
registered validator list.  Observers only receive notifications and never
influence the run, so they are not modelled. -/
structure ValidationService where
  detect_face : Option Image → FaceDetectionResult
  validators : List CheckStrategy

/-- The per-validator loop of `ValidationService.validate_photo` (step 2):
each validator runs in registration order; a successful result is appended
to the photo, an exception is caught and logged and the loop continues with
the next validator. -/
def run_validators (validators : List CheckStrategy)
    (face_detection : FaceDetectionResult) (photo : Photo) : Photo :=
  validators.foldl
    (fun p validator =>
      match validator.validate p (some face_detection) with
      | .ok result => p.add_validation_result result
      | .error _ => p)
    photo

/-- `ValidationService.validate_photo`: detect the face once, run every
registered validator over the photo, then recompute the photo status. -/
def ValidationService.validate_photo (svc : ValidationService) (photo : Photo) :
    Photo :=
  let face_detection := svc.detect_face photo.image_data
  (run_validators svc.validators face_detection photo).update_status

/-- `BrightnessValidator.get_name`. -/
def BrightnessValidator.get_name : String := "BrightnessValidator"

/-- `SharpnessValidator.get_name`. -/
def SharpnessValidator.get_name : String := "SharpnessValidator"

/-- `FacePositionValidator.get_name`. -/
def FacePositionValidator.get_name : String := "FacePositionValidator"

/-- `FacialExpressionValidator.get_name`. -/
def FacialExpressionValidator.get_name : String := "FacialExpressionValidator"

/-- `EyeVisibilityValidator.get_name`. -/
def EyeVisibilityValidator.get_name : String := "EyeVisibilityValidator"

/-- `ReflectionValidator.get_name`. -/
def ReflectionValidator.get_name : String := "ReflectionValidator"

/-- `ShadowValidator.get_name`. -/
def ShadowValidator.get_name : String := "ShadowValidator"

/-- `HeadwearValidator.get_name`. -/
def HeadwearValidator.get_name : String := "HeadwearValidator"

/-- `BackgroundValidator.get_name`. -/
def BackgroundValidator.get_name : String := "BackgroundValidator"

/-- The names, in construction order, of the validators built by
`ValidationService._create_default_validators` (each entry is the
corresponding class's `get_name()`): the source constructs exactly these
seven validators — `BrightnessValidator()`, `SharpnessValidator()`,
`FacePositionValidator()`, `FacialExpressionValidator()`,
`EyeVisibilityValidator()`, `ReflectionValidator()`, `ShadowValidator()`. -/
def create_default_validator_names : List String :=
  [BrightnessValidator.get_name, SharpnessValidator.get_name,
   FacePositionValidator.get_name, FacialExpressionValidator.get_name,
   EyeVisibilityValidator.get_name, ReflectionValidator.get_name,
   ShadowValidator.get_name]

/-- A check whose outcome depends only on the photo's image buffer — true of
every validator in the repository, which read `photo.image_data` but never
`photo.validation_results` or `photo.status`. -/
def ReadsOnlyImage (c : CheckStrategy) : Prop :=
  ∀ p q fd, p.image_data = q.image_data → c.validate p fd = c.validate q fd

/-- C3: after `update_status`, the photo status is exactly a function of the
result list: PENDING iff it is empty, APPROVED iff it is non-empty and every
entry passed, REJECTED iff it is non-empty and at least one entry failed. -/
theorem update_status_matches_results (p : Photo) :
    ((p.update_status).status = .pending ↔ p.validation_results = [])
  ∧ ((p.update_status).status = .approved ↔
      p.validation_results ≠ [] ∧ ∀ r ∈ p.validation_results, r.is_valid = true)
  ∧ ((p.update_status).status = .rejected ↔
      p.validation_results ≠ [] ∧ ∃ r ∈ p.validation_results, r.is_valid = false) := by
  by_cases hemp : p.validation_results = []
  · simp [Photo.update_status, Photo.is_valid, hemp]
  · by_cases hall : p.validation_results.all (fun r => r.is_valid) = true
    · have hv : p.is_valid = true := by
        simp [Photo.is_valid, List.isEmpty_iff, hemp, hall]
      have hall' : ∀ r ∈ p.validation_results, r.is_valid = true :=
        List.all_eq_true.mp hall
      have hnex : ¬∃ r ∈ p.validation_results, r.is_valid = false := by
        rintro ⟨r, hr, hf⟩
        rw [hall' r hr] at hf
        exact absurd hf (by simp)
      have hst : (p.update_status).status = .approved := by
        simp [Photo.update_status, hv]
      rw [hst]
      refine ⟨?_, ?_, ?_⟩
      · simp [hemp]
      · simpa [hemp] using hall'
      · simp [hnex]
    · have hv : p.is_valid = false := by
        simp only [Photo.is_valid, List.isEmpty_iff]
        rw [if_neg hemp]
        exact Bool.not_eq_true _ ▸ hall
      have hnall : ¬∀ r ∈ p.validation_results, r.is_valid = true :=
        fun h => hall (List.all_eq_true.mpr h)
      have hex : ∃ r ∈ p.validation_results, r.is_valid = false := by
        by_contra hno
        refine hnall fun r hr => ?_
        rcases Bool.eq_false_or_eq_true r.is_valid with ht | hf
        · exact ht
        · exact absurd ⟨r, hr, hf⟩ hno
      have hst : (p.update_status).status = .rejected := by
        simp [Photo.update_status, hv, List.isEmpty_iff, hemp]
      rw [hst]
      refine ⟨?_, ?_, ?_⟩
      · simp [hemp]
      · simp [hnall]
      · simp [hemp, hex]

/-- C4: constructing a `ValidationResult` with confidence `c` succeeds — and
stores `c` unclamped — exactly when `0 ≤ c ≤ 1`; any other `c` makes the
constructor fail with the `ValueError` from `__post_init__`. -/
theorem validation_result_confidence_range (name : String) (valid : Bool)
    (c : ℚ) (msg : String) :
    (mkValidationResult name valid c msg = .ok ⟨name, valid, c, msg⟩
      ↔ 0 ≤ c ∧ c ≤ 1)
  ∧ (¬(0 ≤ c ∧ c ≤ 1) →
      mkValidationResult name valid c msg =
        .error "Confidence must be between 0.0 and 1.0") := by
  constructor
  · constructor
    · intro h
      by_contra hc
      rw [mkValidationResult, if_neg hc] at h
      exact Except.noConfusion h
    · intro hc
      rw [mkValidationResult, if_pos hc]
  · intro hc
    rw [mkValidationResult, if_neg hc]

/-- Witness for C4 at `c = 3/2`: out-of-range construction fails. -/
theorem validation_result_confidence_range_witness :
    mkValidationResult "V" true (3/2) "m" =
      .error "Confidence must be between 0.0 and 1.0" :=
  (validation_result_confidence_range "V" true (3/2) "m").2 (by norm_num)

/-- C9: the face center of bounding box `(100, 200, 300, 400)` is
`(250, 400)` and its size is `120000`; without a bounding box both
accessors return `None`. -/
theorem face_center_and_size (fd : FaceDetectionResult) :
    (FaceDetectionResult.get_face_center
        ⟨true, 9/10, some (100, 200, 300, 400), none⟩ = some (250, 400))
  ∧ (FaceDetectionResult.get_face_size
        ⟨true, 9/10, some (100, 200, 300, 400), none⟩ = some 120000)
  ∧ (fd.face_bbox = none →
      fd.get_face_center = none ∧ fd.get_face_size = none) := by
  refine ⟨rfl, rfl, fun h => ?_⟩
  rw [FaceDetectionResult.get_face_center, FaceDetectionResult.get_face_size, h]
  exact ⟨rfl, rfl⟩

/-- Witness for C9 at a concrete bbox-free detection result. -/
theorem face_center_and_size_witness :
    FaceDetectionResult.get_face_center ⟨false, 0, none, none⟩ = none
  ∧ FaceDetectionResult.get_face_size ⟨false, 0, none, none⟩ = none :=
  (face_center_and_size ⟨false, 0, none, none⟩).2.2 rfl

/-- C10: a photo with an empty result list has overall confidence exactly
`0.0` — the mean is not computed, so there is no division by zero. -/
theorem overall_confidence_empty (p : Photo) (h : p.validation_results = []) :
    p.get_overall_confidence = 0 := by
  rw [Photo.get_overall_confidence, if_pos (by rw [h]; rfl)]

/-- Witness for C10 at a fresh photo. -/
theorem overall_confidence_empty_witness :
    Photo.get_overall_confidence ⟨some [[100]], .pending, []⟩ = 0 :=
  overall_confidence_empty ⟨some [[100]], .pending, []⟩ rfl

/-- C5 counterexample: the default validator list built by
`_create_default_validators` has seven entries, not nine; neither the
headwear check nor the background check is registered by default. -/
theorem default_validators_not_nine :
    create_default_validator_names.length = 7
  ∧ create_default_validator_names.length ≠ 9
  ∧ "HeadwearValidator" ∉ create_default_validator_names
  ∧ "BackgroundValidator" ∉ create_default_validator_names := by
  refine ⟨rfl, by decide, ?_, ?_⟩ <;> decide

/-- C5 amended: the default list contains exactly seven checks — brightness,
sharpness, face position, expression, eye visibility, glare/reflection,
shadow — in that fixed registration order. -/
theorem default_validators_seven :
    create_default_validator_names =
      ["BrightnessValidator", "SharpnessValidator", "FacePositionValidator",
       "FacialExpressionValidator", "EyeVisibilityValidator",
       "ReflectionValidator", "ShadowValidator"] := rfl

/-- C8: for every threshold `t`, the shared `BaseValidator` constructor that
all nine strategies delegate to succeeds — storing `t` unclamped — iff
`0 ≤ t ≤ 1` and fails with the `ValueError` otherwise; the setter stores `t`
exactly when `0 ≤ t ≤ 1` and otherwise raises, leaving the stored threshold
unchanged; and each of the nine strategy constructors succeeds under exactly
the same condition. -/
theorem threshold_construction_and_setter (t : ℚ) (v : BaseValidator) :
    ((mkBaseValidator t = .ok ⟨t⟩) ↔ (0 ≤ t ∧ t ≤ 1))
  ∧ (¬(0 ≤ t ∧ t ≤ 1) →
      mkBaseValidator t = .error "Threshold must be between 0.0 and 1.0")
  ∧ ((0 ≤ t ∧ t ≤ 1) → v.set_threshold t = (⟨t⟩, none))
  ∧ (¬(0 ≤ t ∧ t ≤ 1) →
      v.set_threshold t = (v, some "Threshold must be between 0.0 and 1.0"))
  ∧ (∀ a b : ℚ, ((mkBrightnessValidator t a b).isOk
        ∧ (mkSharpnessValidator t a).isOk
        ∧ (mkFacePositionValidator t a b a).isOk
        ∧ (mkFacialExpressionValidator t a).isOk
        ∧ (mkEyeVisibilityValidator t a).isOk
        ∧ (mkReflectionValidator t a b).isOk
        ∧ (mkShadowValidator t a b).isOk
        ∧ (mkHeadwearValidator t).isOk
        ∧ (mkBackgroundValidator t).isOk) ↔ (0 ≤ t ∧ t ≤ 1)) := by
  have hbase : ∀ h : 0 ≤ t ∧ t ≤ 1, mkBaseValidator t = .ok ⟨t⟩ :=
    fun h => by rw [mkBaseValidator, if_pos h]
  have hbase' : ∀ h : ¬(0 ≤ t ∧ t ≤ 1),
      mkBaseValidator t = .error "Threshold must be between 0.0 and 1.0" :=
    fun h => by rw [mkBaseValidator, if_neg h]
  refine ⟨⟨fun h => ?_, hbase⟩, hbase', fun h => ?_, fun h => ?_, fun a b => ?_⟩
  · by_contra hc
    rw [hbase' hc] at h
    exact Except.noConfusion h
  · rw [BaseValidator.set_threshold, if_pos h]
  · rw [BaseValidator.set_threshold, if_neg h]
  · by_cases h : 0 ≤ t ∧ t ≤ 1
    · simp [mkBrightnessValidator, mkSharpnessValidator, mkFacePositionValidator,
        mkFacialExpressionValidator, mkEyeVisibilityValidator,
        mkReflectionValidator, mkShadowValidator, mkHeadwearValidator,
        mkBackgroundValidator, hbase h, Except.isOk, Except.toBool, Except.map, h]
    · simp [mkBrightnessValidator, mkSharpnessValidator, mkFacePositionValidator,
        mkFacialExpressionValidator, mkEyeVisibilityValidator,
        mkReflectionValidator, mkShadowValidator, mkHeadwearValidator,
        mkBackgroundValidator, hbase' h, Except.isOk, Except.toBool, Except.map, h]

/-- Witness for C8 at `t = 2` on a validator holding threshold `1/2`: the
setter raises and the stored threshold is unchanged. -/
theorem threshold_construction_and_setter_witness :
    BaseValidator.set_threshold ⟨1/2⟩ 2 =
      (⟨1/2⟩, some "Threshold must be between 0.0 and 1.0")
  ∧ mkBaseValidator 2 = .error "Threshold must be between 0.0 and 1.0" :=
  ⟨(threshold_construction_and_setter 2 ⟨1/2⟩).2.2.2.1 (by norm_num),
   (threshold_construction_and_setter 2 ⟨1/2⟩).2.1 (by norm_num)⟩

/-- C2 counterexample: the background check is a face-requiring strategy
(it cannot analyse the background without a face for reference), yet with a
valid image and `face_found = false` it returns `is_valid = True` with
confidence `0.5` and a "could not be analysed" message — not
`passed = false` with confidence `0.0` and a "no face detected" message. -/
theorem background_no_face_passes :
    BackgroundValidator.validate ⟨1/2⟩ (fun _ _ => ⟨0, 0, 0, 0, 0⟩)
      ⟨some [[100]], .pending, []⟩ (some ⟨false, 0, none, none⟩) =
    .ok ⟨"BackgroundValidator", true, 1/2,
      "Achtergrond kon niet worden geanalyseerd"⟩ := by
  rfl

/-- C2 amended: of the face-requiring checks, face position, expression, eye
visibility and headwear each return `passed = false` with confidence exactly
`0.0` and a "no face detected" message — without raising — whenever the
landmark result is missing or has `face_found = false`; the background check
instead returns `passed = true` with confidence `0.5` (see the
counterexample). -/
theorem face_checks_without_face_fail (fp : FacePositionValidator)
    (ex : FacialExpressionValidator) (eye : EyeVisibilityValidator)
    (hw : HeadwearValidator) (measure : Image → ForeheadMeasurements)
    (photo : Photo) (img : Image) (himg : photo.image_data = some img)
    (hsz : Image.size img ≠ 0) (fdo : Option FaceDetectionResult)
    (hno : ∀ fd, fdo = some fd → fd.face_found = false) :
    fp.validate photo fdo = .ok ⟨"FacePositionValidator", false, 0,
        "Geen gezicht gedetecteerd. Zorg dat uw gezicht zichtbaar is"⟩
  ∧ ex.validate photo fdo =
      .ok ⟨"FacialExpressionValidator", false, 0, "Geen gezicht gedetecteerd"⟩
  ∧ eye.validate photo fdo =
      .ok ⟨"EyeVisibilityValidator", false, 0, "Geen gezicht gedetecteerd"⟩
  ∧ hw.validate measure photo fdo =
      .ok ⟨"HeadwearValidator", false, 0, "Geen gezicht gedetecteerd"⟩ := by
  have hvid : validate_image_data photo = .ok () := by
    simp [validate_image_data, himg, hsz]
  rcases fdo with _ | fd
  · refine ⟨?_, ?_, ?_, ?_⟩ <;>
      simp [FacePositionValidator.validate, FacialExpressionValidator.validate,
        EyeVisibilityValidator.validate, HeadwearValidator.validate, hvid]
  · have hff : fd.face_found = false := hno fd rfl
    refine ⟨?_, ?_, ?_, ?_⟩ <;>
      simp [FacePositionValidator.validate, FacialExpressionValidator.validate,
        EyeVisibilityValidator.validate, HeadwearValidator.validate, hvid, hff]

/-- Witness for C2 at a 1-pixel photo and a `face_found = false` detection. -/
theorem face_checks_without_face_fail_witness :
    FacePositionValidator.validate ⟨1/2, 3/10, 1/20, 7/10⟩
      ⟨some [[100]], .pending, []⟩ (some ⟨false, 0, none, none⟩) =
      .ok ⟨"FacePositionValidator", false, 0,
        "Geen gezicht gedetecteerd. Zorg dat uw gezicht zichtbaar is"⟩
  ∧ FacialExpressionValidator.validate ⟨2/5, 1/2⟩
      ⟨some [[100]], .pending, []⟩ (some ⟨false, 0, none, none⟩) =
      .ok ⟨"FacialExpressionValidator", false, 0, "Geen gezicht gedetecteerd"⟩
  ∧ EyeVisibilityValidator.validate ⟨2/5, 3/25⟩
      ⟨some [[100]], .pending, []⟩ (some ⟨false, 0, none, none⟩) =
      .ok ⟨"EyeVisibilityValidator", false, 0, "Geen gezicht gedetecteerd"⟩
  ∧ HeadwearValidator.validate ⟨1/2⟩ (fun _ => ⟨0, 0, 0⟩)
      ⟨some [[100]], .pending, []⟩ (some ⟨false, 0, none, none⟩) =
      .ok ⟨"HeadwearValidator", false, 0, "Geen gezicht gedetecteerd"⟩ :=
  face_checks_without_face_fail ⟨1/2, 3/10, 1/20, 7/10⟩ ⟨2/5, 1/2⟩ ⟨2/5, 3/25⟩
    ⟨1/2⟩ (fun _ => ⟨0, 0, 0⟩) ⟨some [[100]], .pending, []⟩ [[100]] rfl
    (by decide) (some ⟨false, 0, none, none⟩) (fun fd h => by cases h; rfl)

/-- Appending a validation result does not touch the image buffer. -/
theorem add_validation_result_image (p : Photo) (r : ValidationResult) :
    (p.add_validation_result r).image_data = p.image_data := rfl

/-- Recomputing the status does not touch the result list. -/
theorem update_status_results (p : Photo) :
    (p.update_status).validation_results = p.validation_results := by
  rw [Photo.update_status]
  split
  · rfl
  split <;> rfl

/-- The validator loop appends, in registration order, exactly the results
of the checks whose evaluation returns normally; a check that raises
contributes nothing and does not stop the later checks. -/
theorem run_validators_results (checks : List CheckStrategy)
    (fd : FaceDetectionResult) (p : Photo)
    (h : ∀ c ∈ checks, ReadsOnlyImage c) :
    (run_validators checks fd p).validation_results =
      p.validation_results ++
        checks.filterMap (fun c => (c.validate p (some fd)).toOption) := by
  induction checks generalizing p with
  | nil => simp [run_validators]
  | cons c cs ih =>
    have hc : ReadsOnlyImage c := h c (List.mem_cons_self c cs)
    have hcs : ∀ c' ∈ cs, ReadsOnlyImage c' :=
      fun c' hc' => h c' (List.mem_cons_of_mem c hc')
    rcases hcv : c.validate p (some fd) with e | r
    · have : run_validators (c :: cs) fd p = run_validators cs fd p := by
        simp [run_validators, hcv]
      rw [this, ih p hcs]
      simp [List.filterMap_cons, hcv, Except.toOption]
    · have hstep : run_validators (c :: cs) fd p =
          run_validators cs fd (p.add_validation_result r) := by
        simp [run_validators, hcv]
      have hsame : ∀ c' ∈ cs,
          (c'.validate (p.add_validation_result r) (some fd)).toOption =
            (c'.validate p (some fd)).toOption :=
        fun c' hc' => by
          rw [hcs c' hc' _ _ _ (add_validation_result_image p r)]
      rw [hstep, ih _ hcs, List.filterMap_congr hsame]
      simp [Photo.add_validation_result, List.filterMap_cons, hcv, Except.toOption]

/-- C1 counterexample: a run over two registered checks, the second of which
raises, appends only one result — not one per registered check. -/
theorem validate_photo_drops_raising_check :
    (ValidationService.validate_photo
        ⟨fun _ => ⟨false, 0, none, none⟩,
         [⟨"OkValidator", fun _ _ => .ok ⟨"OkValidator", true, 1, "ok"⟩⟩,
          ⟨"BoomValidator", fun _ _ => .error "boom"⟩]⟩
        ⟨some [[100]], .pending, []⟩).validation_results.length = 1
  ∧ ([⟨"OkValidator", fun _ _ => .ok ⟨"OkValidator", true, 1, "ok"⟩⟩,
      ⟨"BoomValidator", fun _ _ => .error "boom"⟩] :
        List CheckStrategy).length = 2 := ⟨rfl, rfl⟩

/-- C1 amended: a run appends exactly one `CheckResult` per registered check
whose evaluation returns normally, in registration order; a check whose
evaluation raises is caught (and logged), contributes no result, and the
remaining checks still run — the run is not aborted.  The hypothesis — true
of every validator in the repository — is that a check reads only the
photo's image buffer. -/
theorem validate_photo_appends_successful_results (svc : ValidationService)
    (photo : Photo) (h : ∀ c ∈ svc.validators, ReadsOnlyImage c) :
    (svc.validate_photo photo).validation_results =
      photo.validation_results ++
        svc.validators.filterMap
          (fun c =>
            (c.validate photo (some (svc.detect_face photo.image_data))).toOption) := by
  rw [ValidationService.validate_photo, update_status_results,
    run_validators_results svc.validators _ photo h]

/-- Witness for C1: a three-check service whose middle check raises appends
the first and third results, in order. -/
theorem validate_photo_appends_successful_results_witness :
    (ValidationService.validate_photo
        ⟨fun _ => ⟨false, 0, none, none⟩,
         [⟨"A", fun _ _ => .ok ⟨"A", true, 1, "ok"⟩⟩,
          ⟨"B", fun _ _ => .error "boom"⟩,
          ⟨"C", fun _ _ => .ok ⟨"C", false, 1/2, "meh"⟩⟩]⟩
        ⟨some [[100]], .pending, []⟩).validation_results =
      (⟨some [[100]], .pending, []⟩ : Photo).validation_results ++
        ([⟨"A", fun _ _ => .ok ⟨"A", true, 1, "ok"⟩⟩,
          ⟨"B", fun _ _ => .error "boom"⟩,
          ⟨"C", fun _ _ => .ok ⟨"C", false, 1/2, "meh"⟩⟩] :
            List CheckStrategy).filterMap
          (fun c =>
            (c.validate ⟨some [[100]], .pending, []⟩
              (some ((fun _ => ⟨false, 0, none, none⟩ :
                Option Image → FaceDetectionResult)
                  (some [[100]])))).toOption) :=
  validate_photo_appends_successful_results
    ⟨fun _ => ⟨false, 0, none, none⟩,
     [⟨"A", fun _ _ => .ok ⟨"A", true, 1, "ok"⟩⟩,
      ⟨"B", fun _ _ => .error "boom"⟩,
      ⟨"C", fun _ _ => .ok ⟨"C", false, 1/2, "meh"⟩⟩]⟩
    ⟨some [[100]], .pending, []⟩
    (by
      intro c hc
      fin_cases hc <;> exact fun p q fd _ => rfl)

/-- Flattening a constant `r × c` image gives `r * c` constant pixels. -/
theorem replicate_flatten_eq (r c v : ℕ) :
    (List.replicate r (List.replicate c v)).flatten = List.replicate (r * c) v := by
  induction r with
  | zero => simp
  | succ k ih =>
    rw [List.replicate_succ, List.flatten_cons, ih, ← List.replicate_add]
    have : c + k * c = (k + 1) * c := by ring
    rw [this]

/-- Pixel count of a constant `r × c` image. -/
theorem image_size_replicate (r c v : ℕ) :
    Image.size (List.replicate r (List.replicate c v)) = r * c := by
  simp [Image.size, List.map_replicate, List.sum_replicate, smul_eq_mul]

/-- Mean intensity of a constant pixel list. -/
theorem mean_replicate (n val : ℕ) (hn : 0 < n) :
    ((List.replicate n val).map (fun px : ℕ => (px : ℚ))).sum /
      ((List.replicate n val).length : ℚ) = (val : ℚ) := by
  rw [List.map_replicate, List.sum_replicate, List.length_replicate, nsmul_eq_mul]
  exact mul_div_cancel_left₀ _ (Nat.cast_ne_zero.mpr hn.ne')

/-- Histogram mass of a predicate over a constant pixel list: all or
nothing. -/
theorem ratio_replicate (n val : ℕ) (hn : 0 < n) (p : ℕ → Bool) :
    ((((List.replicate n val).filter p).length : ℚ)) /
      ((List.replicate n val).length : ℚ) = if p val then 1 else 0 := by
  rcases hp : p val with _ | _ <;>
    simp [List.filter_replicate, hp, div_self, Nat.cast_ne_zero.mpr hn.ne']

/-- The brightness scoring depends only on the pixel value of a constant
buffer, not on how many pixels there are. -/
theorem brightness_core_const (v : BrightnessValidator) (n val : ℕ)
    (hn : 0 < n) :
    brightness_core v (List.replicate n val) =
      brightness_core v (List.replicate 1 val) := by
  simp only [brightness_core]
  rw [mean_replicate n val hn, mean_replicate 1 val one_pos,
    ratio_replicate n val hn, ratio_replicate 1 val one_pos,
    ratio_replicate n val hn, ratio_replicate 1 val one_pos]

/-- C7: with the default configuration (threshold `0.5`, acceptable range
`[50, 230]`), a solid image of intensity 140 passes with confidence `1.0`
(in particular above `0.7`), a solid image of intensity 20 fails with the
darkness message and confidence `0.3`, and a solid image of intensity 250
fails with the excess-brightness message and confidence `7/30` — following
the 70/30 blend of the in-range score (linear falloff over 30 units) with
the exposure-extremes score. -/
theorem brightness_solid_images (r c : ℕ) (hr : 0 < r) (hc : 0 < c) :
    BrightnessValidator.validate ⟨1/2, 50, 230⟩
        ⟨some (List.replicate r (List.replicate c 140)), .pending, []⟩ =
      .ok ⟨"BrightnessValidator", true, 1, "Belichting is correct"⟩
  ∧ (7/10 : ℚ) < 1
  ∧ BrightnessValidator.validate ⟨1/2, 50, 230⟩
        ⟨some (List.replicate r (List.replicate c 20)), .pending, []⟩ =
      .ok ⟨"BrightnessValidator", false, 3/10,
        "Foto is te donker. Zorg voor meer licht"⟩
  ∧ BrightnessValidator.validate ⟨1/2, 50, 230⟩
        ⟨some (List.replicate r (List.replicate c 250)), .pending, []⟩ =
      .ok ⟨"BrightnessValidator", false, 7/30,
        "Foto is te licht. Verminder de belichting"⟩ := by
  have hn : 0 < r * c := Nat.mul_pos hr hc
  have eval : ∀ val : ℕ,
      BrightnessValidator.validate ⟨1/2, 50, 230⟩
          ⟨some (List.replicate r (List.replicate c val)), .pending, []⟩ =
        .ok (brightness_core ⟨1/2, 50, 230⟩ (List.replicate 1 val)) := by
    intro val
    rw [BrightnessValidator.validate]
    have hvid : validate_image_data
        ⟨some (List.replicate r (List.replicate c val)), .pending, []⟩ =
          .ok () := by
      simp [validate_image_data, image_size_replicate, hn.ne']
    rw [hvid]
    simp only [Option.getD_some]
    rw [replicate_flatten_eq, brightness_core_const _ _ _ hn]
  rw [eval 140, eval 20, eval 250]
  refine ⟨?_, by norm_num, ?_, ?_⟩ <;>
    refine congrArg Except.ok ?_ <;>
    norm_num [brightness_core, List.replicate]

/-- Witness for C7 at 1×1 solid images. -/
theorem brightness_solid_images_witness :
    BrightnessValidator.validate ⟨1/2, 50, 230⟩
        ⟨some (List.replicate 1 (List.replicate 1 140)), .pending, []⟩ =
      .ok ⟨"BrightnessValidator", true, 1, "Belichting is correct"⟩
  ∧ BrightnessValidator.validate ⟨1/2, 50, 230⟩
        ⟨some (List.replicate 1 (List.replicate 1 20)), .pending, []⟩ =
      .ok ⟨"BrightnessValidator", false, 3/10,
        "Foto is te donker. Zorg voor meer licht"⟩ :=
  ⟨(brightness_solid_images 1 1 one_pos one_pos).1,
   (brightness_solid_images 1 1 one_pos one_pos).2.2.1⟩

/-- An eye region crop with a low glare fraction: non-empty, with at most
15% of its pixels brighter than 240 (stated over ℕ: `bright·20 ≤ 3·total`). -/
def low_glare (img : Image) (region : ℕ × ℕ × ℕ × ℕ) : Prop :=
  Image.size (Image.crop img region.1 region.2.1 region.2.2.1 region.2.2.2) ≠ 0
  ∧ ((Image.crop img region.1 region.2.1 region.2.2.1
        region.2.2.2).flatten.filter (fun px => 240 < px)).length * 20 ≤
      3 * Image.size (Image.crop img region.1 region.2.1 region.2.2.1 region.2.2.2)

/-- Perfect eye openness score from an acceptable aspect ratio. -/
theorem eye_open_score_of_acceptable (e : ℚ) (h : 1/4 ≤ e) :
    eye_open_score e = 1 := by
  rw [eye_open_score, if_pos h]

/-- A low-glare eye region gets the full coverage score. -/
theorem check_eye_coverage_of_low_glare (img : Image) (x y w h : ℕ)
    (hgl : low_glare img (x, y, w, h)) :
    check_eye_coverage img (some (x, y, w, h)) = 1 := by
  obtain ⟨hn, hb⟩ := hgl
  rw [check_eye_coverage]
  simp only
  rw [if_neg hn]
  have htot : (0 : ℚ) < (Image.size (Image.crop img x y w h) : ℚ) := by
    exact_mod_cast Nat.pos_of_ne_zero hn
  have hr : (((Image.crop img x y w h).flatten.filter
        (fun px => 240 < px)).length : ℚ) /
      (Image.size (Image.crop img x y w h) : ℚ) ≤ 3/20 := by
    rw [div_le_iff₀ htot]
    have hb' : ((((Image.crop img x y w h).flatten.filter
        (fun px => 240 < px)).length * 20 : ℕ) : ℚ) ≤
        ((3 * Image.size (Image.crop img x y w h) : ℕ) : ℚ) := by
      exact_mod_cast hb
    push_cast at hb'
    linarith
  rw [if_neg (not_lt.mpr (le_trans hr (by norm_num))), if_neg (not_lt.mpr hr)]

/-- C6: with a face, landmarks and both per-eye aspect ratios available, the
eye visibility check (a) passes whenever both aspect ratios are at least
`0.25` and both eye regions are present with a low (≤ 15%) bright-pixel
glare fraction, for any threshold `≤ 1`; and (b) fails whenever either eye's
aspect ratio is below the `0.22` closed breakpoint, regardless of the
blended confidence. -/
theorem eye_visibility_pass_and_fail (v : EyeVisibilityValidator)
    (photo : Photo) (img : Image) (fd : FaceDetectionResult) (lm : Landmarks)
    (le re : ℚ) (himg : photo.image_data = some img)
    (hsz : Image.size img ≠ 0) (hff : fd.face_found = true)
    (hlm : fd.landmarks = some lm) (hne : lm.isEmpty = false)
    (hle : lm.left_eye_height = some le)
    (hre : lm.right_eye_height = some re) :
    ((v.threshold ≤ 1 → 1/4 ≤ le → 1/4 ≤ re →
      ∀ lrg rrg, lm.left_eye_region = some lrg →
        lm.right_eye_region = some rrg →
        low_glare img lrg → low_glare img rrg →
        (v.validate photo (some fd)).toOption.map (fun r => r.is_valid) =
          some true)
  ∧ ((le < 11/50 ∨ re < 11/50) →
      (v.validate photo (some fd)).toOption.map (fun r => r.is_valid) =
        some false)) := by
  have hvid : validate_image_data photo = .ok () := by
    simp [validate_image_data, himg, hsz]
  constructor
  · intro hth hla hra lrg rrg hlr hrr hgl hgr
    obtain ⟨lx, ly, lw, lh⟩ := lrg
    obtain ⟨rx, ry, rw', rh⟩ := rrg
    simp only [EyeVisibilityValidator.validate, hvid, hff, Bool.not_true,
      Bool.false_eq_true, if_neg, ite_false, hlm, hne, himg, Option.getD_some,
      hle, hre, hlr, hrr, calculate_eye_aspect_ratio,
      eye_open_score_of_acceptable le hla, eye_open_score_of_acceptable re hra,
      check_eye_coverage_of_low_glare img lx ly lw lh hgl,
      check_eye_coverage_of_low_glare img rx ry rw' rh hgr,
      Except.toOption, Option.map]
    have hconf : ((1 : ℚ) + 1) / 2 * (7/10) + (1 + 1) / 2 * (3/10) = 1 := by
      norm_num
    rw [hconf]
    have hopen : (11 : ℚ)/50 ≤ le := le_trans (by norm_num) hla
    have hopen' : (11 : ℚ)/50 ≤ re := le_trans (by norm_num) hra
    simp [decide_eq_true hth, decide_eq_true hopen, decide_eq_true hopen']
  · intro hlt
    simp only [EyeVisibilityValidator.validate, hvid, hff, Bool.not_true,
      Bool.false_eq_true, if_neg, ite_false, hlm, hne, himg, Option.getD_some,
      hle, hre, calculate_eye_aspect_ratio, Option.getD_some,
      Except.toOption, Option.map]
    rcases hlt with hl | hr
    · simp [decide_eq_false (not_le.mpr hl)]
    · simp [decide_eq_false (not_le.mpr hr)]

/-- Witness for C6: a 2×2 image of value 100; passing case with both aspect
ratios `0.3` and clean 1×1 eye regions, failing case with a left aspect
ratio of `0.1`. -/
theorem eye_visibility_pass_and_fail_witness :
    (EyeVisibilityValidator.validate ⟨2/5, 3/25⟩
        ⟨some [[100, 100], [100, 100]], .pending, []⟩
        (some ⟨true, 9/10, none,
          some ⟨some (3/10), some (3/10), some (0, 0, 1, 1),
            some (1, 0, 1, 1), none, none, none, none, none⟩⟩)).toOption.map
      (fun r => r.is_valid) = some true
  ∧ (EyeVisibilityValidator.validate ⟨2/5, 3/25⟩
        ⟨some [[100, 100], [100, 100]], .pending, []⟩
        (some ⟨true, 9/10, none,
          some ⟨some (1/10), some (3/10), some (0, 0, 1, 1),
            some (1, 0, 1, 1), none, none, none, none, none⟩⟩)).toOption.map
      (fun r => r.is_valid) = some false := by
  constructor
  · exact (eye_visibility_pass_and_fail ⟨2/5, 3/25⟩
      ⟨some [[100, 100], [100, 100]], .pending, []⟩ [[100, 100], [100, 100]]
      ⟨true, 9/10, none,
        some ⟨some (3/10), some (3/10), some (0, 0, 1, 1),
          some (1, 0, 1, 1), none, none, none, none, none⟩⟩
      ⟨some (3/10), some (3/10), some (0, 0, 1, 1), some (1, 0, 1, 1),
        none, none, none, none, none⟩
      (3/10) (3/10) rfl (by decide) rfl rfl (by decide) rfl rfl).1
      (by norm_num) (by norm_num) (by norm_num)
      (0, 0, 1, 1) (1, 0, 1, 1) rfl rfl
      (by constructor <;> decide) (by constructor <;> decide)
  · exact (eye_visibility_pass_and_fail ⟨2/5, 3/25⟩
      ⟨some [[100, 100], [100, 100]], .pending, []⟩ [[100, 100], [100, 100]]
      ⟨true, 9/10, none,
        some ⟨some (1/10), some (3/10), some (0, 0, 1, 1),
          some (1, 0, 1, 1), none, none, none, none, none⟩⟩
      ⟨some (1/10), some (3/10), some (0, 0, 1, 1), some (1, 0, 1, 1),
        none, none, none, none, none⟩
      (1/10) (3/10) rfl (by decide) rfl rfl (by decide) rfl rfl).2
      (Or.inl (by norm_num))
